import Mathlib

/-!
Verification of the AgriGPT routing and synthesis pipeline.

Shallow embedding of the routing core of the repository:
  backend/agents/master_agent.py   (route_query, llm_route_with_scores)
  backend/agents/formatter_agent.py (FormatterAgent.handle_query)
  backend/agents/clarification_agent.py (ClarificationAgent.handle_query)
  backend/services/vision_service.py (query_groq_image validation prefix)
  backend/core/langchain_tools.py  (registry names, NON_ROUTABLE_AGENTS)

External collaborators (the Groq LLM client, json.dumps serialization, the
per-agent handlers behind the registry, and the session recorder) are passed
in as parameters or oracles; everything the claims are about is modelled
directly from the Python source.

Python string operations (.strip(), .upper(), .lower()) are modelled by
executable character-list functions so that concrete runs reduce in the
kernel.  The "score" field of a parsed JSON item is modelled by the PyVal sum
as a JSON integer or a JSON string: CPython raises TypeError when an int and
a str meet in a comparison, and list.sort raises on any int/str-mixed key
list of length at least 2 (timsort's run detection compares adjacent
elements, so a mixed list always performs some int/str comparison); both
failure modes are modelled by the Option-valued sort and comparisons below,
and are caught by the router's blanket `except`, which returns the empty
list.  Score values of other JSON types are outside the model's domain: a
float score compares with ints exactly and without raising in CPython (the
code routes it normally), and a bool behaves as the int 0 or 1.
-/

namespace AgriGPT

/-- Python `str.strip()`: drop whitespace from both ends (modelled on the
character list of the string so that it evaluates in the kernel). -/
def pyStrip (s : String) : String :=
  ⟨((s.data.dropWhile Char.isWhitespace).reverse.dropWhile Char.isWhitespace).reverse⟩

/-- Python `str.upper()`. -/
def pyUpper (s : String) : String := ⟨s.data.map Char.toUpper⟩

/-- Python `str.lower()`. -/
def pyLower (s : String) : String := ⟨s.data.map Char.toLower⟩

/-- Python truthiness of an optional string: `None` and `""` are falsy. -/
def pyTruthy : Option String → Bool
  | none => false
  | some s => !(s == "")

/-- A Python value that may sit in the "score" field of a parsed JSON item:
a JSON integer or a JSON string.  These are the two score types the claims
need: an int score sorts and compares normally, while a str score meeting an
int in a comparison raises TypeError.  Scores of other JSON types are
outside this model's domain — in CPython a float score compares with ints
exactly and without raising (so the code routes it normally), and a bool
score behaves as the int 0 or 1; neither behaves like `str`. -/
inductive PyVal
  | int (n : Int)
  | str (s : String)
deriving DecidableEq, Repr

/-- One element of the JSON array parsed from the router LLM reply, as read
by `item.get("agent")` / `item.get("score", 0)`: either key may be absent. -/
structure Item where
  agent : Option String
  score : Option PyVal
deriving DecidableEq, Repr

/-- A normalized routing candidate (master_agent.py, `candidates` list). -/
structure Cand where
  agent : String
  score : PyVal
deriving DecidableEq, Repr

/-- One entry of a routing plan (master_agent.py, `final_routes` / `routed`). -/
structure RouteEntry where
  agent : String
  role : String
  score : PyVal
deriving DecidableEq, Repr

/-- One entry of `agent_results` in the payload handed to the formatter. -/
structure AgentResult where
  agent : String
  role : String
  score : PyVal
  content : String
deriving DecidableEq, Repr

/-- The payload dict built by `route_query` (master_agent.py lines 112-116). -/
structure Payload where
  user_query : String
  routing_mode : String
  agent_results : List AgentResult
deriving DecidableEq, Repr

/-- The keys of `get_agent_registry()` (langchain_tools.py lines 21-29). -/
def registryNames : List String :=
  ["CropAgent", "PestAgent", "IrrigationAgent", "SubsidyAgent", "YieldAgent",
   "FormatterAgent", "ClarificationAgent"]

/-- `NON_ROUTABLE_AGENTS` (langchain_tools.py line 15). -/
def nonRoutableAgents : List String := ["FormatterAgent"]

/-- The caller-level fallback entry `{"agent": "CropAgent", "role": "primary",
"score": 0}` (master_agent.py line 85 and line 244). -/
def fallbackEntry : RouteEntry := ⟨"CropAgent", "primary", .int 0⟩

/-- `item.get("score", 0)`: a missing score key defaults to the int 0. -/
def defaultScore (o : Option PyVal) : PyVal := o.getD (.int 0)

/-- Candidate normalization loop (master_agent.py lines 191-204): keep items
whose agent is a registry key, not in NON_ROUTABLE_AGENTS and not seen yet;
`seen` accumulates agents already kept. -/
def normAux : List Item → List String → List Cand
  | [], _ => []
  | it :: rest, seen =>
    match it.agent with
    | none => normAux rest seen
    | some a =>
      if a ∈ registryNames ∧ a ∉ nonRoutableAgents ∧ a ∉ seen then
        ⟨a, defaultScore it.score⟩ :: normAux rest (a :: seen)
      else
        normAux rest seen

/-- Candidate normalization starting from an empty `seen` set. -/
def normalizeItems (items : List Item) : List Cand := normAux items []

/-- The integer value of a well-formed score (the `.str` case is only ever
reached under hypotheses that exclude it; it is mapped to 0 arbitrarily). -/
def scInt : PyVal → Int
  | .int n => n
  | .str _ => 0

/-- Whether a modelled score value is an int (its alternative, a str, makes
any CPython comparison with an int raise). -/
def scoreIsInt : PyVal → Bool
  | .int _ => true
  | .str _ => false

/-- Whether every candidate score is an int. -/
def allIntScores (l : List Cand) : Bool := l.all fun c => scoreIsInt c.score

/-- Whether every present score of the parsed items is an int. -/
def wfItems (items : List Item) : Bool :=
  items.all fun it =>
    match it.score with
    | some (.str _) => false
    | _ => true

/-- The order realized by `candidates.sort(key=lambda x: x["score"],
reverse=True)`: score strictly descending, ties broken by the original list
position (CPython's sort is stable, and a stable sort by key is extensionally
the sort by the lexicographic pair (key, original index)). -/
def candBefore (p q : Nat × Cand) : Prop :=
  scInt q.2.score < scInt p.2.score ∨
    (scInt p.2.score = scInt q.2.score ∧ p.1 ≤ q.1)

instance : DecidableRel candBefore := fun p q => by unfold candBefore; infer_instance

instance : IsTotal (Nat × Cand) candBefore := ⟨by intro a b; unfold candBefore; omega⟩

instance : IsTrans (Nat × Cand) candBefore := ⟨by intro a b c; unfold candBefore; omega⟩

/-- `candidates.sort(key=lambda x: x["score"], reverse=True)` on the
candidate list, with each element annotated by its original index.  `none`
models the TypeError CPython raises when the key list mixes ints and strs
(any such list of length ≥ 2 performs a mixed comparison; a list of length
≤ 1 performs none and is returned unchanged, which is what `insertionSort`
also does).  An all-str key list of length ≥ 2 sorts without raising in
CPython, but the first threshold comparison afterwards raises; the model
folds that failure into this step, which leaves the observable router result
unchanged — the empty list either way. -/
def pySortCands (l : List Cand) : Option (List (Nat × Cand)) :=
  if allIntScores l = true ∨ l.length ≤ 1 then
    some (List.insertionSort candBefore l.enum)
  else
    none

/-- A CPython comparison `v >= bound` between a score value and an int
threshold: defined for int scores, TypeError (`none`) for str scores. -/
def pyGeInt (v : PyVal) (bound : Int) : Option Bool :=
  match v with
  | .int m => some (decide (bound ≤ m))
  | .str _ => none

/-- Secondary selection loop (master_agent.py lines 249-262): walk the
remaining sorted candidates, stop once the plan has 3 entries, append as
"supporting" those with score ≥ 50.  `none` models a TypeError escaping to
the router's `except`. -/
def secondaries : List RouteEntry → List Cand → Option (List RouteEntry)
  | acc, [] => some acc
  | acc, c :: cs =>
    if 3 ≤ acc.length then some acc
    else
      match pyGeInt c.score 50 with
      | none => none
      | some true => secondaries (acc ++ [⟨c.agent, "supporting", c.score⟩]) cs
      | some false => secondaries acc cs

/-- Primary selection and secondary selection (master_agent.py lines
215-264), given the sorted candidate list split as best :: rest. -/
def selectRoutes (best : Cand) (rest : List Cand) : Option (List RouteEntry) :=
  match pyGeInt best.score 75 with
  | none => none
  | some true => secondaries [⟨best.agent, "primary", best.score⟩] rest
  | some false =>
    if best.agent = "CropAgent" then
      secondaries [⟨"CropAgent", "primary", best.score⟩] rest
    else
      match pyGeInt best.score 50 with
      | none => none
      | some true => secondaries [⟨best.agent, "primary", best.score⟩] rest
      | some false => some [fallbackEntry]

/-- `llm_route_with_scores` (master_agent.py lines 137-268), as a function of
the parsed LLM reply.  `parsed = none` models every failure up to and
including JSON parsing (LLM invocation error, no bracketed array in the raw
reply, `json.loads` failure); the function body models lines 190-264, and
every exception path (the blanket `except` at line 266) returns `[]`. -/
def llm_route_with_scores (parsed : Option (List Item)) : List RouteEntry :=
  match parsed with
  | none => []
  | some items =>
    match pySortCands (normalizeItems items) with
    | none => []
    | some sortedAnn =>
      match sortedAnn.map Prod.snd with
      | [] => []
      | best :: rest => (selectRoutes best rest).getD []

/-- Caller-side fallback (master_agent.py lines 84-85). -/
def withFallback (routed : List RouteEntry) : List RouteEntry :=
  if routed = [] then [fallbackEntry] else routed

/-- Caller-side primary re-check (master_agent.py lines 88-90). -/
def ensurePrimary (routed : List RouteEntry) : List RouteEntry :=
  if routed.any (fun r => r.role == "primary") then routed
  else
    match routed with
    | [] => []
    | h :: t => ⟨h.agent, "primary", h.score⟩ :: t

/-- The routing plan route_query actually iterates over for a text query:
router output, then the empty fallback, then the primary re-check
(master_agent.py lines 81-90). -/
def effectivePlan (parsed : Option (List Item)) : List RouteEntry :=
  ensurePrimary (withFallback (llm_route_with_scores parsed))

/-- The `agent_results` construction loop (master_agent.py lines 92-110):
take at most MAX_ROUTED_AGENTS = 3 plan entries, skip agents missing from the
registry, and invoke each handler.  `handlers` is the oracle for
`registry[agent_name].handle_query(query=query)`. -/
def buildAgentResults (plan : List RouteEntry) (handlers : String → String) :
    List AgentResult :=
  (plan.take 3).filterMap fun e =>
    if e.agent ∈ registryNames then
      some ⟨e.agent, e.role, e.score, handlers e.agent⟩
    else
      none

/-- The payload built for the formatter (master_agent.py lines 112-116):
routing_mode is "multi_agent" iff more than one agent result was collected. -/
def masterPayload (q : String) (plan : List RouteEntry) (handlers : String → String) :
    Payload :=
  let results := buildAgentResults plan handlers
  ⟨q, if 1 < results.length then "multi_agent" else "single_agent", results⟩

/-- Python `str(int)` / f-string rendering of a score value. -/
def renderScore : PyVal → String
  | .int n => toString n
  | .str s => s

/-- Python `", ".join(...)`. -/
def joinComma : List String → String
  | [] => ""
  | [x] => x
  | x :: y :: rest => x ++ ", " ++ joinComma (y :: rest)

/-- The `score_summary` string (master_agent.py lines 122-126); every
collected result carries a "score" key, so the `if 'score' in res` filter
keeps everything. -/
def scoreSummary (results : List AgentResult) : String :=
  joinComma (results.map fun r => r.agent ++ ": " ++ renderScore r.score)

/-- `if query: query = query.strip()` (master_agent.py lines 43-44). -/
def stripQuery : Option String → Option String
  | none => none
  | some s => if s = "" then some s else some (pyStrip s)

/-- The observable outcome of one `route_query` run: the returned reply
string, the routing plan that was used (ghost field, `none` when the
function returns before any plan exists), and whether the Inference-Service
scoring call (`llm_route_with_scores`) was made (ghost field). -/
structure RunResult where
  reply : String
  plan : Option (List RouteEntry)
  scoringCalled : Bool

/-- The reply built on the text path (master_agent.py lines 118-131): the
formatted payload, with the "**Router Confidence:**" line appended whenever
`score_summary` is non-empty. -/
def textReply (q : String) (parsed : Option (List Item)) (handlers : String → String)
    (fmtPayload : Payload → String) : String :=
  let formatted := fmtPayload (masterPayload q (effectivePlan parsed) handlers)
  let summary := scoreSummary (buildAgentResults (effectivePlan parsed) handlers)
  if summary = "" then formatted
  else formatted ++ "\n\n**Router Confidence:** " ++ summary

/-- `route_query` (master_agent.py lines 36-131).  Oracles: `parsed` is the
parsed router LLM reply as in `llm_route_with_scores`; `handlers` the
per-agent text handlers; `pestOut` the output of
`registry["PestAgent"].handle_query(query or "", image_path)`; `fmtString`
and `fmtPayload` the FormatterAgent on a plain string / structured payload;
`jsonDumps` the `json.dumps` serializer (the image branch hands the
formatter a JSON string, not a dict). -/
def route_query (query image_path : Option String) (parsed : Option (List Item))
    (handlers : String → String) (pestOut : String)
    (fmtString : String → String) (fmtPayload : Payload → String)
    (jsonDumps : Payload → String) : RunResult :=
  let q := stripQuery query
  if pyTruthy q = true ∧ 2000 < (q.getD "").length then
    ⟨"Your question is too long. Please shorten it.", none, false⟩
  else if pyTruthy image_path = true then
    let uq := if pyTruthy q = true then q.getD "" else "Image-based crop issue"
    let payload : Payload :=
      ⟨uq, "single_agent", [⟨"PestAgent", "primary", .int 100, pestOut⟩]⟩
    ⟨fmtString (jsonDumps payload), some [⟨"PestAgent", "primary", .int 100⟩], false⟩
  else if pyTruthy q = false then
    ⟨"Please ask an agriculture-related question.", none, false⟩
  else
    ⟨textReply (q.getD "") parsed handlers fmtPayload, some (effectivePlan parsed), true⟩

/-- `role_priority.get(str(x.get("role","supporting")).lower(), 99)`
(formatter_agent.py lines 59-70). -/
def rolePriority (role : String) : Nat :=
  if pyLower role = "primary" then 0
  else if pyLower role = "supporting" then 1
  else if pyLower role = "impact" then 2
  else 99

/-- The order realized by `sorted(agent_results, key=role_priority...)`:
priority ascending, ties broken by the original arrival index (Python's
sorted is stable). -/
def roleBefore (p q : Nat × AgentResult) : Prop :=
  rolePriority p.2.role < rolePriority q.2.role ∨
    (rolePriority p.2.role = rolePriority q.2.role ∧ p.1 ≤ q.1)

instance : DecidableRel roleBefore := fun p q => by unfold roleBefore; infer_instance

instance : IsTotal (Nat × AgentResult) roleBefore := ⟨by intro a b; unfold roleBefore; omega⟩

instance : IsTrans (Nat × AgentResult) roleBefore := ⟨by intro a b c; unfold roleBefore; omega⟩

/-- The stable role sort of the formatter, annotated with arrival indices. -/
def roleSortAnn (results : List AgentResult) : List (Nat × AgentResult) :=
  List.insertionSort roleBefore results.enum

/-- `agent_results_sorted` (formatter_agent.py lines 65-70). -/
def sortedResults (results : List AgentResult) : List AgentResult :=
  (roleSortAnn results).map Prod.snd

/-- One ordered content block `f"[{role.upper()} | {agent}]\n{content}"`
(formatter_agent.py lines 84-86): role is lowercased first, content is
stripped. -/
def blockOf (r : AgentResult) : String :=
  "[" ++ pyUpper (pyLower r.role) ++ " | " ++ r.agent ++ "]\n" ++ pyStrip r.content

/-- The block/role-log building loop (formatter_agent.py lines 75-90): walk
the sorted results, drop entries whose stripped content is empty. -/
def buildBlocks : List AgentResult → List String × List (String × String)
  | [] => ([], [])
  | r :: rs =>
    let rest := buildBlocks rs
    if pyStrip r.content = "" then rest
    else (blockOf r :: rest.1, (r.agent, pyLower r.role) :: rest.2)

/-- `ordered_blocks` for a structured payload's agent results. -/
def fmtBlocks (results : List AgentResult) : List String :=
  (buildBlocks (sortedResults results)).1

/-- `role_log` for a structured payload's agent results. -/
def fmtRoleLog (results : List AgentResult) : List (String × String) :=
  (buildBlocks (sortedResults results)).2

/-- The `meta` dict (formatter_agent.py lines 100-104). -/
structure FmtMeta where
  routing_mode : String
  agents : List (String × String)
  agent_count : Nat
deriving DecidableEq, Repr

/-- Outcome of the formatter's structured-payload path (formatter_agent.py
lines 44-114): the two early returns, or the ordered blocks plus meta that
reach `_format_text`. -/
inductive FmtOutcome
  | noResults
  | allEmpty
  | ok (blocks : List String) (meta : FmtMeta)
deriving DecidableEq, Repr

/-- `FormatterAgent.handle_query` on a structured payload, up to the final
LLM presentation call (formatter_agent.py lines 44-114). -/
def fmtStructured (p : Payload) : FmtOutcome :=
  if p.agent_results = [] then .noResults
  else if fmtBlocks p.agent_results = [] then .allEmpty
  else .ok (fmtBlocks p.agent_results)
    ⟨p.routing_mode, fmtRoleLog p.agent_results, (fmtRoleLog p.agent_results).length⟩

/-- `ClarificationAgent.GREETINGS` (clarification_agent.py line 20). -/
def clarifGreetings : List String :=
  ["hi", "hello", "hey", "hola", "good morning", "good afternoon",
   "good evening, hii"]

/-- `ClarificationAgent.THANKS` (clarification_agent.py line 21). -/
def clarifThanks : List String :=
  ["thanks", "thank you", "thx", "ty", "appreciate it"]

/-- `ClarificationAgent.GOODBYES` (clarification_agent.py line 22). -/
def clarifGoodbyes : List String := ["bye", "goodbye", "see you", "later", "cya"]

/-- Fixed reply for an empty/blank query. -/
def emptyQueryMsg : String :=
  "Hello! I\x27m AgriGPT, your farming assistant. What crop or issue would you like help with today?"

/-- Fixed reply for a greeting. -/
def greetingMsg : String :=
  "Hello! I\x27m AgriGPT, your farming assistant. What crop or issue can I help you with today?"

/-- Fixed reply for thanks. -/
def thanksMsg : String := "You\x27re welcome! Let me know if you have any more questions."

/-- Fixed reply for a goodbye. -/
def goodbyeMsg : String := "Goodbye! Feel free to come back anytime. Happy farming!"

/-- Fixed reply for a query shorter than 2 characters. -/
def tooShortMsg : String :=
  "I didn\x27t quite catch that. Could you tell me more about what you need help with?"

/-- Fixed fallback when the Inference Service call raises. -/
def troubleMsg : String :=
  "I\x27m having a bit of trouble. Could you tell me more about the crop and issue you\x27re facing?"

/-- The pass signal the gate returns in place of the literal PASS reply
(clarification_agent.py line 97). -/
def passMsg : String :=
  "Got it! Let me connect you with the right expert. If you don\x27t get a helpful answer, try rephrasing your question with more details."

/-- Modelled from the spec: `AgriAgentBase.respond_and_record` lives in
backend/agents/agri_agent_base.py, which is not part of the provided source.
Per the spec (section 4.1), it records the turn for session continuity as a
side effect and the produced text is "returned directly", so it is modelled
as returning the response text unchanged. -/
def respond_and_record (_query response : String) (_image : Option String) : String :=
  response

/-- `ClarificationAgent.handle_query` (clarification_agent.py lines 24-99).
`llmReply` is the oracle for `query_groq_text(prompt)`: `none` models the
call raising. -/
def clarifHandle (query : Option String) (image_path : Option String)
    (llmReply : Option String) : String :=
  if pyTruthy query = false ∨ pyStrip (query.getD "") = "" then emptyQueryMsg
  else
    let clean := pyStrip (query.getD "")
    let lower := pyLower clean
    if lower ∈ clarifGreetings then greetingMsg
    else if lower ∈ clarifThanks then thanksMsg
    else if lower ∈ clarifGoodbyes then goodbyeMsg
    else if clean.length < 2 then tooShortMsg
    else
      match llmReply with
      | none => troubleMsg
      | some resp =>
        let r := pyStrip resp
        if pyUpper r = "PASS" then passMsg
        else respond_and_record clean r image_path

/-- The file system as the vision service observes it: `present` models
`os.path.exists`, `size` models `os.path.getsize`, and `read` models opening
and reading the file (`none` = the read raises). -/
structure FileSys where
  present : String → Bool
  size : String → Nat
  read : String → Option (List Nat)

/-- PNG magic bytes `\x89PNG` (vision_service.py line 39). -/
def pngMagic : List Nat := [0x89, 0x50, 0x4E, 0x47]

/-- JPEG magic bytes `\xFF\xD8` (vision_service.py line 42). -/
def jpegMagic : List Nat := [0xFF, 0xD8]

/-- `_detect_mime` (vision_service.py lines 32-45): read the first 10 bytes;
a failed read yields "unknown". -/
def detectMime (fs : FileSys) (path : String) : String :=
  match fs.read path with
  | none => "unknown"
  | some bytes =>
    let header := bytes.take 10
    if pngMagic.isPrefixOf header then "image/png"
    else if jpegMagic.isPrefixOf header then "image/jpeg"
    else "unknown"

/-- Rejection message for a missing file. -/
def msgNotFound : String := "The image file was not found."

/-- Rejection message for an oversized file. -/
def msgTooLarge : String := "The image is too large. Please upload an image under 8MB."

/-- Rejection message for a non-PNG/JPEG file. -/
def msgBadFormat : String := "Unsupported image format. Please upload a PNG or JPG image."

/-- Rejection message for an unreadable file. -/
def msgUnreadable : String := "The image could not be read."

/-- Rejection message for an empty file. -/
def msgEmptyFile : String := "The image file appears to be empty."

/-- All five pre-call rejection messages of `query_groq_image`. -/
def visionMessages : List String :=
  [msgNotFound, msgTooLarge, msgBadFormat, msgUnreadable, msgEmptyFile]

/-- The validation prefix of `query_groq_image` (vision_service.py lines
66-97): everything that runs before the Groq client is created.  `some msg`
means the function returns `msg` before any external call; `none` means
validation passed and the external call would be made. -/
def visionCheck (fs : FileSys) (path : String) : Option String :=
  if path = "" ∨ fs.present path = false then some msgNotFound
  else if 8 * 1024 * 1024 < fs.size path then some msgTooLarge
  else if detectMime fs path ≠ "image/png" ∧ detectMime fs path ≠ "image/jpeg" then
    some msgBadFormat
  else
    match fs.read path with
    | none => some msgUnreadable
    | some bytes => if bytes = [] then some msgEmptyFile else none

/-- A concrete query of 2001 non-whitespace characters (one more than
MAX_QUERY_CHARS = 2000). -/
def longA : String := ⟨List.replicate 2001 'a'⟩

/-- Modelled from the spec words, for refinement comparison only (claim C8
words: normalization "treats a malformed score as 0"): a normalization in
which any missing or string-typed score becomes the int 0. -/
def specScore : Option PyVal → PyVal
  | some (.int n) => .int n
  | _ => .int 0

/-- The normalization loop under the spec-words score handling. -/
def specNormAux : List Item → List String → List Cand
  | [], _ => []
  | it :: rest, seen =>
    match it.agent with
    | none => specNormAux rest seen
    | some a =>
      if a ∈ registryNames ∧ a ∉ nonRoutableAgents ∧ a ∉ seen then
        ⟨a, specScore it.score⟩ :: specNormAux rest (a :: seen)
      else
        specNormAux rest seen

/-- The router under the spec-words normalization ("malformed score as 0"). -/
def llm_routeSpecNorm (parsed : Option (List Item)) : List RouteEntry :=
  match parsed with
  | none => []
  | some items =>
    match pySortCands (specNormAux items []) with
    | none => []
    | some sortedAnn =>
      match sortedAnn.map Prod.snd with
      | [] => []
      | best :: rest => (selectRoutes best rest).getD []

/-- A concrete parsed scoring reply exercising every normalization rule: a
strong PestAgent, an IrrigationAgent with a missing score, an unknown agent,
the non-routable FormatterAgent, and a duplicate PestAgent. -/
def c8Items : List Item :=
  [⟨some "PestAgent", some (.int 92)⟩, ⟨some "IrrigationAgent", none⟩,
   ⟨some "Bogus", some (.int 99)⟩, ⟨some "FormatterAgent", some (.int 88)⟩,
   ⟨some "PestAgent", some (.int 10)⟩]

/-- A concrete parsed scoring reply in which the second candidate carries a
string-typed score ("oops"): CPython's sort raises a TypeError comparing it
with the int 90 and the router's `except` turns the run into an empty
result. -/
def c8CexItems : List Item :=
  [⟨some "PestAgent", some (.int 90)⟩, ⟨some "YieldAgent", some (.str "oops")⟩]

/-- A concrete file system on which every path is missing. -/
def c9fs : FileSys := ⟨fun _ => false, fun _ => 0, fun _ => none⟩

/-! Lemmas about candidate normalization (master_agent.py lines 191-204). -/

theorem norm_mem : ∀ (items : List Item) (seen : List String) (c : Cand),
    c ∈ normAux items seen →
    c.agent ∈ registryNames ∧ c.agent ∉ nonRoutableAgents ∧ c.agent ∉ seen := by
  intro items
  induction items with
  | nil => intro seen c hc; simp [normAux] at hc
  | cons it rest ih =>
    intro seen c hc
    simp only [normAux] at hc
    split at hc
    · exact ih seen c hc
    · rename_i a hag
      split at hc
      · rename_i hcond
        rcases List.mem_cons.mp hc with rfl | hmem
        · exact ⟨hcond.1, hcond.2.1, hcond.2.2⟩
        · have := ih (a :: seen) c hmem
          exact ⟨this.1, this.2.1, fun hs => this.2.2 (List.mem_cons_of_mem a hs)⟩
      · exact ih seen c hc

theorem norm_nodup : ∀ (items : List Item) (seen : List String),
    ((normAux items seen).map Cand.agent).Nodup := by
  intro items
  induction items with
  | nil => intro seen; simp [normAux]
  | cons it rest ih =>
    intro seen
    simp only [normAux]
    split
    · exact ih seen
    · rename_i a hag
      split
      · rename_i hcond
        simp only [List.map_cons, List.nodup_cons]
        constructor
        · intro hmem
          rcases List.mem_map.mp hmem with ⟨c, hc, hca⟩
          have := (norm_mem rest (a :: seen) c hc).2.2
          exact this (hca ▸ List.mem_cons_self a seen)
        · exact ih (a :: seen)
      · exact ih seen

theorem norm_first : ∀ (items : List Item) (seen : List String) (c : Cand),
    c ∈ normAux items seen →
    ∃ pre it post, items = pre ++ it :: post ∧ it.agent = some c.agent ∧
      c.score = defaultScore it.score ∧ ∀ it2 ∈ pre, it2.agent ≠ some c.agent := by
  intro items
  induction items with
  | nil => intro seen c hc; simp [normAux] at hc
  | cons it rest ih =>
    intro seen c hc
    simp only [normAux] at hc
    split at hc
    · rename_i hag
      rcases ih seen c hc with ⟨pre, it3, post, hdec, hsome, hsc, hpre⟩
      refine ⟨it :: pre, it3, post, by rw [hdec]; rfl, hsome, hsc, ?_⟩
      intro it2 h2
      rcases List.mem_cons.mp h2 with rfl | h2
      · rw [hag]; exact fun h => Option.noConfusion h
      · exact hpre it2 h2
    · rename_i a hag
      split at hc
      · rename_i hcond
        rcases List.mem_cons.mp hc with rfl | hmem
        · exact ⟨[], it, rest, rfl, hag, rfl, by intro it2 h2; simp at h2⟩
        · rcases ih (a :: seen) c hmem with ⟨pre, it3, post, hdec, hsome, hsc, hpre⟩
          have hne : c.agent ≠ a := by
            intro h
            exact (norm_mem rest (a :: seen) c hmem).2.2 (h ▸ List.mem_cons_self a seen)
          refine ⟨it :: pre, it3, post, by rw [hdec]; rfl, hsome, hsc, ?_⟩
          intro it2 h2
          rcases List.mem_cons.mp h2 with rfl | h2
          · rw [hag]; intro h; exact hne (Option.some.inj h).symm
          · exact hpre it2 h2
      · rename_i hcond
        rcases ih seen c hc with ⟨pre, it3, post, hdec, hsome, hsc, hpre⟩
        have hmm := norm_mem rest seen c hc
        have hne : a ≠ c.agent := by
          intro h
          exact hcond ⟨h ▸ hmm.1, h ▸ hmm.2.1, h ▸ hmm.2.2⟩
        refine ⟨it :: pre, it3, post, by rw [hdec]; rfl, hsome, hsc, ?_⟩
        intro it2 h2
        rcases List.mem_cons.mp h2 with rfl | h2
        · rw [hag]; intro h; exact hne (Option.some.inj h)
        · exact hpre it2 h2

theorem norm_complete : ∀ (items : List Item) (seen : List String) (a : String)
    (it : Item), it ∈ items → it.agent = some a → a ∈ registryNames →
    a ∉ nonRoutableAgents →
    a ∈ seen ∨ a ∈ (normAux items seen).map Cand.agent := by
  intro items
  induction items with
  | nil => intro seen a it hit; simp at hit
  | cons it0 rest ih =>
    intro seen a it hit hag hreg hnr
    rcases List.mem_cons.mp hit with rfl | hmem
    · simp only [normAux]
      rw [hag]
      by_cases hseen : a ∈ seen
      · left; exact hseen
      · dsimp only
        rw [if_pos ⟨hreg, hnr, hseen⟩]
        right; exact List.mem_cons_self _ _
    · simp only [normAux]
      split
      · exact ih seen a it hmem hag hreg hnr
      · rename_i b hb
        split
        · rcases ih (b :: seen) a it hmem hag hreg hnr with hs | hs
          · rcases List.mem_cons.mp hs with rfl | hs
            · right; exact List.mem_cons_self _ _
            · left; exact hs
          · right; exact List.mem_cons_of_mem _ hs
        · exact ih seen a it hmem hag hreg hnr

theorem norm_score_shape (items : List Item) (c : Cand)
    (hc : c ∈ normalizeItems items) :
    ∃ it ∈ items, c.score = defaultScore it.score := by
  rcases norm_first items [] c hc with ⟨pre, it, post, hdec, _, hsc, _⟩
  exact ⟨it, by rw [hdec]; exact List.mem_append_right pre (List.mem_cons_self it post), hsc⟩

theorem wf_allInt (items : List Item) (hwf : wfItems items = true) :
    allIntScores (normalizeItems items) = true := by
  rw [allIntScores, List.all_eq_true]
  intro c hc
  rcases norm_score_shape items c hc with ⟨it, hit, hsc⟩
  have hw := (List.all_eq_true.mp hwf) it hit
  rw [hsc]
  cases hos : it.score with
  | none => rfl
  | some v =>
    cases v with
    | int n => rfl
    | str s => rw [hos] at hw; simp at hw

/-! Lemmas about the candidate sort. -/

theorem pySortCands_of_allInt (l : List Cand) (h : allIntScores l = true) :
    pySortCands l = some (List.insertionSort candBefore l.enum) := by
  rw [pySortCands, if_pos (Or.inl h)]

theorem sortAnn_perm (l : List Cand) :
    List.Perm (List.insertionSort candBefore l.enum) l.enum :=
  List.perm_insertionSort candBefore l.enum

theorem sortedCands_perm (l : List Cand) :
    List.Perm ((List.insertionSort candBefore l.enum).map Prod.snd) l := by
  have h := (sortAnn_perm l).map Prod.snd
  rw [List.enum_map_snd] at h
  exact h

theorem sortAnn_pairwise (l : List Cand) :
    (List.insertionSort candBefore l.enum).Pairwise candBefore :=
  List.sorted_insertionSort candBefore l.enum

theorem sortedCands_pairwise (l : List Cand) :
    ((List.insertionSort candBefore l.enum).map Prod.snd).Pairwise
      (fun a b => scInt b.score ≤ scInt a.score) := by
  rw [List.pairwise_map]
  refine (sortAnn_pairwise l).imp ?_
  intro a b hab
  rcases hab with h | h
  · omega
  · omega

theorem sortedCands_nodup (l : List Cand)
    (h : (l.map Cand.agent).Nodup) :
    (((List.insertionSort candBefore l.enum).map Prod.snd).map Cand.agent).Nodup := by
  have hp := (sortedCands_perm l).map Cand.agent
  exact hp.nodup_iff.mpr h

/-! Lemmas about secondary selection and the route assembly. -/

theorem secondaries_eq : ∀ (cs : List Cand) (acc out : List RouteEntry),
    secondaries acc cs = some out →
    ∃ extra, out = acc ++ extra ∧
      (∀ e ∈ extra, e.role = "supporting" ∧ e.agent ∈ cs.map Cand.agent) ∧
      out.length ≤ max acc.length 3 := by
  intro cs
  induction cs with
  | nil =>
    intro acc out h
    simp only [secondaries, Option.some.injEq] at h
    exact ⟨[], by simp [h.symm], by simp, by simp [h.symm, Nat.le_max_left]⟩
  | cons c cs ih =>
    intro acc out h
    simp only [secondaries] at h
    split at h
    · injection h with h
      exact ⟨[], by simp [h.symm], by simp, by simp [h.symm, Nat.le_max_left]⟩
    · rename_i hlen
      split at h
      · exact Option.noConfusion h
      · rcases ih _ _ h with ⟨extra, hout, hmem, hlen2⟩
        refine ⟨RouteEntry.mk c.agent "supporting" c.score :: extra, by simp [hout], ?_, ?_⟩
        · intro e he
          rcases List.mem_cons.mp he with rfl | he
          · exact ⟨rfl, List.mem_cons_self _ _⟩
          · exact ⟨(hmem e he).1, List.mem_cons_of_mem _ (hmem e he).2⟩
        · have : (acc ++ [RouteEntry.mk c.agent "supporting" c.score]).length = acc.length + 1 := by
            simp
          omega
      · rcases ih _ _ h with ⟨extra, hout, hmem, hlen2⟩
        exact ⟨extra, hout, fun e he =>
          ⟨(hmem e he).1, List.mem_cons_of_mem _ (hmem e he).2⟩, hlen2⟩

theorem secondaries_total : ∀ (cs : List Cand) (acc : List RouteEntry),
    (∀ c ∈ cs, scoreIsInt c.score = true) →
    ∃ out, secondaries acc cs = some out := by
  intro cs
  induction cs with
  | nil => intro acc _; exact ⟨acc, rfl⟩
  | cons c cs ih =>
    intro acc hwf
    simp only [secondaries]
    split
    · exact ⟨acc, rfl⟩
    · have hc := hwf c (List.mem_cons_self c cs)
      cases hsc : c.score with
      | str s => rw [hsc] at hc; simp [scoreIsInt] at hc
      | int m =>
        cases hd : decide ((50 : Int) ≤ m) with
        | false =>
          simp only [pyGeInt, hd]
          exact ih acc fun x hx => hwf x (List.mem_cons_of_mem c hx)
        | true =>
          simp only [pyGeInt, hd]
          exact ih _ fun x hx => hwf x (List.mem_cons_of_mem c hx)

theorem secondaries_nodup : ∀ (cs : List Cand) (acc out : List RouteEntry),
    secondaries acc cs = some out →
    ((acc.map RouteEntry.agent) ++ cs.map Cand.agent).Nodup →
    (out.map RouteEntry.agent).Nodup := by
  intro cs
  induction cs with
  | nil =>
    intro acc out h hnd
    simp only [secondaries, Option.some.injEq] at h
    subst h
    simpa using hnd
  | cons c cs ih =>
    intro acc out h hnd
    simp only [secondaries] at h
    split at h
    · injection h with h
      subst h
      exact List.Nodup.sublist (List.sublist_append_left _ _) hnd
    · split at h
      · exact Option.noConfusion h
      · refine ih _ _ h ?_
        have heq : ((acc ++ [(⟨c.agent, "supporting", c.score⟩ : RouteEntry)]).map RouteEntry.agent)
            ++ cs.map Cand.agent = (acc.map RouteEntry.agent) ++ (c.agent :: cs.map Cand.agent) := by
          simp
        rw [heq]
        simpa using hnd
      · refine ih _ _ h ?_
        refine List.Nodup.sublist ?_ hnd
        exact (List.sublist_cons_of_sublist c.agent (List.Sublist.refl _)).append_left _

theorem pySortCands_some (l : List Cand) (s : List (Nat × Cand))
    (h : pySortCands l = some s) : s = List.insertionSort candBefore l.enum := by
  unfold pySortCands at h
  split at h
  · exact (Option.some.inj h).symm
  · exact Option.noConfusion h

theorem selectRoutes_spec (best : Cand) (rest : List Cand) (out : List RouteEntry)
    (h : selectRoutes best rest = some out)
    (hnd : ((best :: rest).map Cand.agent).Nodup) :
    (out.map RouteEntry.agent).Nodup ∧ out.length ≤ 3 ∧
    (out = [fallbackEntry] ∨
     ∃ extra, out = RouteEntry.mk best.agent "primary" best.score :: extra ∧
       ∀ e ∈ extra, e.role = "supporting") := by
  have main : ∀ p : RouteEntry, p = RouteEntry.mk best.agent "primary" best.score →
      secondaries [p] rest = some out →
      (out.map RouteEntry.agent).Nodup ∧ out.length ≤ 3 ∧
      (out = [fallbackEntry] ∨
       ∃ extra, out = RouteEntry.mk best.agent "primary" best.score :: extra ∧
         ∀ e ∈ extra, e.role = "supporting") := by
    intro p hp hsec
    rcases secondaries_eq rest [p] out hsec with ⟨extra, hout, hmem, hlen⟩
    refine ⟨?_, ?_, Or.inr ⟨extra, by rw [hout, hp]; rfl, fun e he => (hmem e he).1⟩⟩
    · refine secondaries_nodup rest [p] out hsec ?_
      have heq : ([p].map RouteEntry.agent) ++ rest.map Cand.agent
          = best.agent :: rest.map Cand.agent := by rw [hp]; rfl
      rw [heq]
      simpa using hnd
    · have h1 : ([p] : List RouteEntry).length = 1 := rfl
      omega
  simp only [selectRoutes] at h
  split at h
  · exact Option.noConfusion h
  · exact main _ rfl h
  · split at h
    · rename_i hcrop
      refine main _ ?_ h
      rw [hcrop]
    · split at h
      · exact Option.noConfusion h
      · exact main _ rfl h
      · injection h with h
        subst h
        exact ⟨by simp, by simp, Or.inl rfl⟩

theorem llm_route_shape (parsed : Option (List Item)) :
    llm_route_with_scores parsed = [] ∨
    ∃ h t, llm_route_with_scores parsed = h :: t ∧ h.role = "primary" ∧
      (∀ e ∈ t, e.role = "supporting") ∧
      (llm_route_with_scores parsed).length ≤ 3 ∧
      ((llm_route_with_scores parsed).map RouteEntry.agent).Nodup := by
  cases parsed with
  | none => left; rfl
  | some items =>
    cases hps : pySortCands (normalizeItems items) with
    | none => left; simp [llm_route_with_scores, hps]
    | some sortedAnn =>
      have hs := pySortCands_some _ _ hps
      subst hs
      cases hmap : (List.insertionSort candBefore (normalizeItems items).enum).map Prod.snd with
      | nil =>
        left
        simp [llm_route_with_scores, hps, hmap]
      | cons best rest =>
        have hroute : llm_route_with_scores (some items) = (selectRoutes best rest).getD [] := by
          simp only [llm_route_with_scores, hps, hmap]
        have hnodup : ((best :: rest).map Cand.agent).Nodup := by
          have hnd := sortedCands_nodup (normalizeItems items) (norm_nodup items [])
          rw [hmap] at hnd
          exact hnd
        cases hsel : selectRoutes best rest with
        | none => left; rw [hroute, hsel]; rfl
        | some out =>
          rcases selectRoutes_spec best rest out hsel hnodup with ⟨hnd, hlen, hcases⟩
          right
          rcases hcases with rfl | ⟨extra, rfl, hsup⟩
          · exact ⟨fallbackEntry, [], by rw [hroute, hsel]; rfl, rfl, by simp,
              by rw [hroute, hsel]; exact hlen, by rw [hroute, hsel]; exact hnd⟩
          · exact ⟨_, extra, by rw [hroute, hsel]; rfl, rfl, hsup,
              by rw [hroute, hsel]; exact hlen, by rw [hroute, hsel]; exact hnd⟩

theorem effectivePlan_of_empty (parsed : Option (List Item))
    (h : llm_route_with_scores parsed = []) :
    effectivePlan parsed = [fallbackEntry] := by
  unfold effectivePlan
  rw [h]
  rfl

theorem effectivePlan_of_cons (parsed : Option (List Item)) (h : RouteEntry)
    (t : List RouteEntry) (hr : llm_route_with_scores parsed = h :: t)
    (hprim : h.role = "primary") :
    effectivePlan parsed = h :: t := by
  unfold effectivePlan withFallback
  rw [hr, if_neg (by simp)]
  unfold ensurePrimary
  rw [if_pos (by simp [hprim])]

/-- C1: for every routing plan produced by the router for a text query,
including the plan obtained after the caller replaces an empty router result
with the fallback entry, the plan is non-empty, has at most 3 entries,
exactly one entry carries role "primary", and no agent id occurs twice. -/
theorem c1_plan_invariants (parsed : Option (List Item)) :
    1 ≤ (effectivePlan parsed).length ∧ (effectivePlan parsed).length ≤ 3 ∧
    (effectivePlan parsed).countP (fun e => e.role == "primary") = 1 ∧
    ((effectivePlan parsed).map RouteEntry.agent).Nodup := by
  rcases llm_route_shape parsed with hE | ⟨h, t, hr, hprim, hsup, hlen, hnd⟩
  · rw [effectivePlan_of_empty parsed hE]
    exact ⟨by decide, by decide, by decide, by decide⟩
  · rw [effectivePlan_of_cons parsed h t hr hprim]
    rw [hr] at hlen hnd
    refine ⟨by simp, hlen, ?_, hnd⟩
    have ht : t.countP (fun e => e.role == "primary") = 0 := by
      rw [List.countP_eq_zero]
      intro e he
      simp [hsup e he]
    simp [List.countP_cons, ht, hprim]

/-! Lemmas about the long concrete query and the route_query branches. -/

theorem dropWhile_replicate (n : Nat) (c : Char) (h : Char.isWhitespace c = false) :
    (List.replicate n c).dropWhile Char.isWhitespace = List.replicate n c := by
  cases n with
  | zero => rfl
  | succ m =>
    rw [List.replicate_succ, List.dropWhile_cons, h]
    simp

theorem pyStrip_longA : pyStrip longA = longA := by
  have hlist : ((longA.data.dropWhile Char.isWhitespace).reverse.dropWhile
      Char.isWhitespace).reverse = longA.data := by
    have hd : longA.data = List.replicate 2001 'a' := rfl
    rw [hd, dropWhile_replicate _ _ (by decide), List.reverse_replicate,
      dropWhile_replicate _ _ (by decide), List.reverse_replicate]
  show (⟨((longA.data.dropWhile Char.isWhitespace).reverse.dropWhile
    Char.isWhitespace).reverse⟩ : String) = longA
  rw [hlist]

theorem longA_length : longA.length = 2001 := by
  show longA.data.length = 2001
  rw [show longA.data = List.replicate 2001 'a' from rfl, List.length_replicate]

theorem longA_ne : longA ≠ "" := by
  intro h
  have hl := congrArg String.length h
  rw [longA_length] at hl
  have h0 : ("" : String).length = 0 := rfl
  omega

theorem stripQuery_longA : stripQuery (some longA) = some longA := by
  show (if longA = "" then some longA else some (pyStrip longA)) = some longA
  rw [if_neg longA_ne, pyStrip_longA]

theorem pyTruthy_longA : pyTruthy (some longA) = true := by
  have hb : (longA == "") = false := beq_eq_false_iff_ne.mpr longA_ne
  show (!(longA == "")) = true
  rw [hb]
  rfl

theorem scoreSummary_ne (results : List AgentResult) (hne : results ≠ []) :
    scoreSummary results ≠ "" := by
  cases results with
  | nil => exact absurd rfl hne
  | cons r rs =>
    unfold scoreSummary
    intro hEq
    have hlen := congrArg String.length hEq
    have h2 : (": " : String).length = 2 := rfl
    have h3 : (", " : String).length = 2 := rfl
    have h0 : ("" : String).length = 0 := rfl
    cases rs with
    | nil =>
      simp only [List.map_cons, List.map_nil, joinComma] at hlen
      rw [String.length_append, String.length_append] at hlen
      omega
    | cons r2 rs2 =>
      simp only [List.map_cons, joinComma] at hlen
      rw [String.length_append, String.length_append, String.length_append,
        String.length_append] at hlen
      omega

theorem route_query_text (query image_path : Option String) (parsed : Option (List Item))
    (handlers : String → String) (pestOut : String) (fmtString : String → String)
    (fmtPayload : Payload → String) (jsonDumps : Payload → String)
    (hq : pyTruthy (stripQuery query) = true)
    (hlen : ((stripQuery query).getD "").length ≤ 2000)
    (himg : pyTruthy image_path = false) :
    route_query query image_path parsed handlers pestOut fmtString fmtPayload jsonDumps =
      ⟨textReply ((stripQuery query).getD "") parsed handlers fmtPayload,
       some (effectivePlan parsed), true⟩ := by
  simp only [route_query]
  rw [if_neg (fun hc => absurd hc.2 (by omega)),
    if_neg (fun hc => by rw [himg] at hc; exact Bool.noConfusion hc),
    if_neg (fun hc => by rw [hq] at hc; exact Bool.noConfusion hc)]

theorem route_query_image (query image_path : Option String) (parsed : Option (List Item))
    (handlers : String → String) (pestOut : String) (fmtString : String → String)
    (fmtPayload : Payload → String) (jsonDumps : Payload → String)
    (himg : pyTruthy image_path = true)
    (hok : pyTruthy (stripQuery query) = false ∨ ((stripQuery query).getD "").length ≤ 2000) :
    route_query query image_path parsed handlers pestOut fmtString fmtPayload jsonDumps =
      ⟨fmtString (jsonDumps ⟨if pyTruthy (stripQuery query) = true
          then (stripQuery query).getD "" else "Image-based crop issue",
        "single_agent", [⟨"PestAgent", "primary", .int 100, pestOut⟩]⟩),
       some [⟨"PestAgent", "primary", .int 100⟩], false⟩ := by
  simp only [route_query]
  rw [if_neg ?hc1, if_pos himg]
  case hc1 =>
    rcases hok with h | h
    · intro hc
      have hcc := hc.1
      rw [h] at hcc
      exact Bool.noConfusion hcc
    · exact fun hc => absurd hc.2 (by omega)

/-- C2 counterexample: a request carrying an image reference together with an
accompanying text of 2001 characters is rejected by the length guard
(master_agent.py lines 46-47) before the image branch is reached, so no
routing plan is produced at all — refuting "regardless of any accompanying
text". -/
theorem c2_cex :
    (route_query (some longA) (some "leaf.png") none (fun _ => "") ""
      id (fun _ => "") (fun _ => "")).plan = none ∧
    (none : Option (List RouteEntry)) ≠ some [⟨"PestAgent", "primary", .int 100⟩] := by
  constructor
  · simp only [route_query, stripQuery_longA]
    rw [if_pos ⟨pyTruthy_longA,
      by rw [show ((some longA).getD "") = longA from rfl, longA_length]; omega⟩]
  · decide

/-- C2 (amended): for every request that carries a truthy (present and
non-empty) image reference and whose stripped text, if any, is at most 2000
characters, the routing plan is exactly one entry — PestAgent with role
primary and score 100 — and no Inference-Service scoring call is made. -/
theorem c2_image_override (query image_path : Option String) (parsed : Option (List Item))
    (handlers : String → String) (pestOut : String) (fmtString : String → String)
    (fmtPayload : Payload → String) (jsonDumps : Payload → String)
    (himg : pyTruthy image_path = true)
    (hok : pyTruthy (stripQuery query) = false ∨ ((stripQuery query).getD "").length ≤ 2000) :
    (route_query query image_path parsed handlers pestOut fmtString fmtPayload jsonDumps).plan
      = some [⟨"PestAgent", "primary", .int 100⟩] ∧
    (route_query query image_path parsed handlers pestOut fmtString fmtPayload
      jsonDumps).scoringCalled = false := by
  rw [route_query_image query image_path parsed handlers pestOut fmtString fmtPayload
    jsonDumps himg hok]
  exact ⟨rfl, rfl⟩

/-- C2 witness: a concrete image request with short text resolves to the
single PestAgent primary entry without scoring. -/
theorem c2_w :
    (route_query (some "what pest is this?") (some "leaf.png") none (fun _ => "")
        "pest reply" id (fun _ => "") (fun _ => "")).plan
      = some [⟨"PestAgent", "primary", .int 100⟩] ∧
    (route_query (some "what pest is this?") (some "leaf.png") none (fun _ => "")
        "pest reply" id (fun _ => "") (fun _ => "")).scoringCalled = false :=
  c2_image_override _ _ _ _ _ _ _ _ (by decide) (Or.inr (by decide))

/-- C3: every scoring failure — parse failure (`parsed = none`), an empty
candidate list after normalization, or a type error escaping to the router's
`except` (`pySortCands = none`) — makes the router return the empty list, and
the caller on the text path then uses the plan [CropAgent, primary, 0]. -/
theorem c3_router_failure_fallback :
    llm_route_with_scores none = [] ∧
    (∀ items, normalizeItems items = [] → llm_route_with_scores (some items) = []) ∧
    (∀ items, pySortCands (normalizeItems items) = none →
      llm_route_with_scores (some items) = []) ∧
    (∀ parsed, llm_route_with_scores parsed = [] → effectivePlan parsed = [fallbackEntry]) ∧
    (∀ (query image_path : Option String) (parsed : Option (List Item))
      (handlers : String → String) (pestOut : String) (fmtString : String → String)
      (fmtPayload : Payload → String) (jsonDumps : Payload → String),
      pyTruthy (stripQuery query) = true →
      ((stripQuery query).getD "").length ≤ 2000 →
      pyTruthy image_path = false →
      (route_query query image_path parsed handlers pestOut fmtString fmtPayload jsonDumps).plan
        = some (effectivePlan parsed)) := by
  refine ⟨rfl, ?_, ?_, ?_, ?_⟩
  · intro items hn
    simp only [llm_route_with_scores, hn]
    rfl
  · intro items hps
    simp only [llm_route_with_scores, hps]
  · intro parsed hE
    exact effectivePlan_of_empty parsed hE
  · intro query image_path parsed handlers pestOut fmtString fmtPayload jsonDumps hq hlen himg
    rw [route_query_text query image_path parsed handlers pestOut fmtString fmtPayload
      jsonDumps hq hlen himg]

/-- C3 witness: the only parsed candidate is non-routable, so normalization
is empty and the router returns []; a type-error input also returns [] and
the caller plan is the fallback entry; and route_query uses the effective
plan on a concrete text query. -/
theorem c3_w :
    llm_route_with_scores (some [⟨some "FormatterAgent", some (.int 99)⟩]) = [] ∧
    effectivePlan (some [⟨some "Bogus", some (.str "x")⟩]) = [fallbackEntry] ∧
    (route_query (some "how to grow rice") none (some []) (fun _ => "crop advice") ""
      id (fun _ => "fmt") (fun _ => "")).plan = some (effectivePlan (some [])) :=
  ⟨c3_router_failure_fallback.2.1 _ (by decide),
   c3_router_failure_fallback.2.2.2.1 _ (by decide),
   c3_router_failure_fallback.2.2.2.2 _ _ _ _ _ _ _ _ (by decide) (by decide) (by decide)⟩

/-- C4: primary selection follows the thresholds exactly — the top sorted
candidate becomes primary (with its own score) when its score is at least 75,
or when it is CropAgent regardless of score, or when its score is at least
50; otherwise all candidates are abandoned and the router returns the single
fallback entry [CropAgent, primary, 0].  In particular a sole candidate
YieldAgent with score 40 yields the fallback plan. -/
theorem c4_primary_thresholds (best : Cand) (rest : List Cand) (n : Int)
    (hs : best.score = .int n)
    (hrest : ∀ c ∈ rest, scoreIsInt c.score = true) :
    ((75 ≤ n ∨ best.agent = "CropAgent" ∨ 50 ≤ n) →
      ∃ extra, selectRoutes best rest =
        some (RouteEntry.mk best.agent "primary" best.score :: extra)) ∧
    ((n < 75 ∧ best.agent ≠ "CropAgent" ∧ n < 50) →
      selectRoutes best rest = some [fallbackEntry]) ∧
    llm_route_with_scores (some [⟨some "YieldAgent", some (.int 40)⟩]) = [fallbackEntry] := by
  refine ⟨?_, ?_, by decide⟩
  · intro hcase
    by_cases h75 : 75 ≤ n
    · have hge : pyGeInt best.score 75 = some true := by
        rw [hs]; simp only [pyGeInt, Option.some.injEq, decide_eq_true_eq]; exact h75
      simp only [selectRoutes, hge]
      rcases secondaries_total rest [RouteEntry.mk best.agent "primary" best.score]
        hrest with ⟨out, hout⟩
      rcases secondaries_eq rest _ out hout with ⟨extra, houte, _, _⟩
      exact ⟨extra, by rw [hout, houte]; rfl⟩
    · have hge : pyGeInt best.score 75 = some false := by
        rw [hs]; simp only [pyGeInt, Option.some.injEq, decide_eq_false_iff_not]; omega
      by_cases hcrop : best.agent = "CropAgent"
      · simp only [selectRoutes, hge, if_pos hcrop]
        rcases secondaries_total rest [RouteEntry.mk "CropAgent" "primary" best.score]
          hrest with ⟨out, hout⟩
        rcases secondaries_eq rest _ out hout with ⟨extra, houte, _, _⟩
        refine ⟨extra, ?_⟩
        rw [hout, houte, hcrop]
        rfl
      · have h50 : 50 ≤ n := by
          rcases hcase with h | h | h
          · omega
          · exact absurd h hcrop
          · exact h
        have hge50 : pyGeInt best.score 50 = some true := by
          rw [hs]; simp only [pyGeInt, Option.some.injEq, decide_eq_true_eq]; exact h50
        simp only [selectRoutes, hge, if_neg hcrop, hge50]
        rcases secondaries_total rest [RouteEntry.mk best.agent "primary" best.score]
          hrest with ⟨out, hout⟩
        rcases secondaries_eq rest _ out hout with ⟨extra, houte, _, _⟩
        exact ⟨extra, by rw [hout, houte]; rfl⟩
  · rintro ⟨h75, hcrop, h50⟩
    have hge : pyGeInt best.score 75 = some false := by
      rw [hs]; simp only [pyGeInt, Option.some.injEq, decide_eq_false_iff_not]; omega
    have hge50 : pyGeInt best.score 50 = some false := by
      rw [hs]; simp only [pyGeInt, Option.some.injEq, decide_eq_false_iff_not]; omega
    simp only [selectRoutes, hge, if_neg hcrop, hge50]

/-- C4 witness: a 92-score PestAgent tops the plan as primary; a sole
40-score YieldAgent is abandoned for the fallback entry. -/
theorem c4_w :
    (∃ extra, selectRoutes ⟨"PestAgent", .int 92⟩ [] =
      some (RouteEntry.mk "PestAgent" "primary" (.int 92) :: extra)) ∧
    selectRoutes ⟨"YieldAgent", .int 40⟩ [] = some [fallbackEntry] :=
  ⟨(c4_primary_thresholds ⟨"PestAgent", .int 92⟩ [] 92 rfl (by simp)).1
      (Or.inl (by omega)),
   (c4_primary_thresholds ⟨"YieldAgent", .int 40⟩ [] 40 rfl (by simp)).2.1
      ⟨by omega, by decide, by omega⟩⟩

/-- C10: on the text path, whenever at least one agent result is collected,
the final reply is the formatter output with the "**Router Confidence:**"
line appended, and is therefore never the formatter output alone. -/
theorem c10_confidence_appended (query image_path : Option String)
    (parsed : Option (List Item)) (handlers : String → String) (pestOut : String)
    (fmtString : String → String) (fmtPayload : Payload → String)
    (jsonDumps : Payload → String)
    (hq : pyTruthy (stripQuery query) = true)
    (hlen : ((stripQuery query).getD "").length ≤ 2000)
    (himg : pyTruthy image_path = false)
    (hres : buildAgentResults (effectivePlan parsed) handlers ≠ []) :
    (route_query query image_path parsed handlers pestOut fmtString fmtPayload jsonDumps).reply
      = fmtPayload (masterPayload ((stripQuery query).getD "") (effectivePlan parsed) handlers)
        ++ "\n\n**Router Confidence:** "
        ++ scoreSummary (buildAgentResults (effectivePlan parsed) handlers) ∧
    (route_query query image_path parsed handlers pestOut fmtString fmtPayload jsonDumps).reply
      ≠ fmtPayload (masterPayload ((stripQuery query).getD "") (effectivePlan parsed) handlers)
      := by
  rw [route_query_text query image_path parsed handlers pestOut fmtString fmtPayload
    jsonDumps hq hlen himg]
  have hsum := scoreSummary_ne _ hres
  constructor
  · show textReply ((stripQuery query).getD "") parsed handlers fmtPayload = _
    simp only [textReply]
    rw [if_neg hsum]
  · show textReply ((stripQuery query).getD "") parsed handlers fmtPayload ≠ _
    simp only [textReply]
    rw [if_neg hsum]
    intro heq
    have hl := congrArg String.length heq
    rw [String.length_append, String.length_append] at hl
    have h25 : 0 < ("\n\n**Router Confidence:** " : String).length := by decide
    omega

/-- C10 witness: a concrete irrigation query produces a reply that is the
formatter output plus the confidence line. -/
theorem c10_w :
    (route_query (some "How often should I water tomatoes?") none
        (some [⟨some "IrrigationAgent", some (.int 80)⟩])
        (fun _ => "Water twice a week.") "" id (fun _ => "FORMATTED") (fun _ => "")).reply
      = "FORMATTED" ++ "\n\n**Router Confidence:** "
        ++ scoreSummary (buildAgentResults
            (effectivePlan (some [⟨some "IrrigationAgent", some (.int 80)⟩]))
            (fun _ => "Water twice a week.")) ∧
    (route_query (some "How often should I water tomatoes?") none
        (some [⟨some "IrrigationAgent", some (.int 80)⟩])
        (fun _ => "Water twice a week.") "" id (fun _ => "FORMATTED") (fun _ => "")).reply
      ≠ "FORMATTED" :=
  c10_confidence_appended _ _ _ _ _ _ _ _ (by decide) (by decide) (by decide) (by decide)

/-- C8 counterexample: on a reply whose second item has the string score
"oops", the actual router returns [] (the sort raises and the `except`
swallows it), while the spec-words normalization ("malformed score as 0")
would route PestAgent as primary with score 90. -/
theorem c8_cex :
    llm_route_with_scores (some c8CexItems) = [] ∧
    llm_routeSpecNorm (some c8CexItems) = [⟨"PestAgent", "primary", .int 90⟩] ∧
    ([] : List RouteEntry) ≠ [⟨"PestAgent", "primary", .int 90⟩] :=
  ⟨by decide, by decide, by decide⟩

/-- C8 (amended): provided every present score is an int, normalization keeps
exactly the registry-known, routable agents, deduplicates by first
occurrence, defaults a missing score to 0, and the sort orders the annotated
candidates by score descending with the original position breaking ties (a
string-typed score instead aborts the whole scoring attempt, see the
counterexample). -/
theorem c8_normalize_sort (items : List Item) (hwf : wfItems items = true) :
    (∀ c ∈ normalizeItems items,
      c.agent ∈ registryNames ∧ c.agent ∉ nonRoutableAgents) ∧
    ((normalizeItems items).map Cand.agent).Nodup ∧
    (∀ c ∈ normalizeItems items, ∃ pre it post,
      items = pre ++ it :: post ∧ it.agent = some c.agent ∧
      c.score = defaultScore it.score ∧
      ∀ it2 ∈ pre, it2.agent ≠ some c.agent) ∧
    (∀ it ∈ items, ∀ a, it.agent = some a → a ∈ registryNames →
      a ∉ nonRoutableAgents → a ∈ (normalizeItems items).map Cand.agent) ∧
    (∃ sortedAnn, pySortCands (normalizeItems items) = some sortedAnn ∧
      List.Perm sortedAnn (normalizeItems items).enum ∧
      sortedAnn.Pairwise candBefore ∧
      (sortedAnn.map Prod.snd).Pairwise (fun a b => scInt b.score ≤ scInt a.score)) := by
  refine ⟨?_, norm_nodup items [], ?_, ?_, ?_⟩
  · intro c hc
    exact ⟨(norm_mem items [] c hc).1, (norm_mem items [] c hc).2.1⟩
  · intro c hc
    exact norm_first items [] c hc
  · intro it hit a ha hreg hnr
    rcases norm_complete items [] a it hit ha hreg hnr with h | h
    · simp at h
    · exact h
  · exact ⟨_, pySortCands_of_allInt _ (wf_allInt items hwf), sortAnn_perm _,
      sortAnn_pairwise _, sortedCands_pairwise _⟩

/-- C8 witness: on the concrete well-formed reply, normalization is
duplicate-free and the sort exists, is a permutation of the annotated
candidates, and is ordered. -/
theorem c8_w :
    wfItems c8Items = true ∧
    ((normalizeItems c8Items).map Cand.agent).Nodup ∧
    (∃ sortedAnn, pySortCands (normalizeItems c8Items) = some sortedAnn ∧
      List.Perm sortedAnn (normalizeItems c8Items).enum ∧
      sortedAnn.Pairwise candBefore ∧
      (sortedAnn.map Prod.snd).Pairwise (fun a b => scInt b.score ≤ scInt a.score)) :=
  ⟨by decide, (c8_normalize_sort c8Items (by decide)).2.1,
   (c8_normalize_sort c8Items (by decide)).2.2.2.2⟩

/-! Lemmas about the formatter's role sort. -/

theorem roleSortAnn_perm (results : List AgentResult) :
    List.Perm (roleSortAnn results) results.enum :=
  List.perm_insertionSort roleBefore results.enum

theorem roleSortAnn_pairwise (results : List AgentResult) :
    (roleSortAnn results).Pairwise roleBefore :=
  List.sorted_insertionSort roleBefore results.enum

theorem sortedResults_pairwise (results : List AgentResult) :
    (sortedResults results).Pairwise
      (fun a b => rolePriority a.role ≤ rolePriority b.role) := by
  rw [sortedResults, List.pairwise_map]
  refine (roleSortAnn_pairwise results).imp ?_
  intro a b hab
  rcases hab with h | h
  · omega
  · omega

theorem buildBlocks_eq (l : List AgentResult) :
    buildBlocks l = ((l.filter fun r => !(pyStrip r.content == "")).map blockOf,
      (l.filter fun r => !(pyStrip r.content == "")).map
        fun r => (r.agent, pyLower r.role)) := by
  induction l with
  | nil => rfl
  | cons r rs ih =>
    simp only [buildBlocks, ih, List.filter_cons]
    by_cases h : pyStrip r.content = ""
    · have hb : (!(pyStrip r.content == "")) = false := by simp [h]
      rw [if_pos h, hb]
      simp
    · have hb : (!(pyStrip r.content == "")) = true := by simp [h]
      rw [if_neg h, hb]
      simp

/-- C6: for every input list of provider results, the formatter's sort is a
permutation of the index-annotated inputs ordered by role priority (primary,
supporting, impact, unknown last) with arrival order breaking ties — i.e. the
stable role sort — and the block/role-log construction drops exactly the
entries whose content strips to empty; the concrete scenario [impact,
primary, supporting] comes out [primary, supporting, impact]. -/
theorem c6_formatter_ordering :
    (∀ results : List AgentResult,
      List.Perm (roleSortAnn results) results.enum ∧
      sortedResults results = (roleSortAnn results).map Prod.snd ∧
      (roleSortAnn results).Pairwise roleBefore ∧
      (sortedResults results).Pairwise
        (fun a b => rolePriority a.role ≤ rolePriority b.role) ∧
      fmtBlocks results = ((sortedResults results).filter
        (fun r => !(pyStrip r.content == ""))).map blockOf ∧
      fmtRoleLog results = ((sortedResults results).filter
        (fun r => !(pyStrip r.content == ""))).map
          (fun r => (r.agent, pyLower r.role))) ∧
    sortedResults
      [⟨"YieldAgent", "impact", .int 60, "impact text"⟩,
       ⟨"PestAgent", "primary", .int 90, "primary text"⟩,
       ⟨"IrrigationAgent", "supporting", .int 70, "supporting text"⟩]
      = [⟨"PestAgent", "primary", .int 90, "primary text"⟩,
         ⟨"IrrigationAgent", "supporting", .int 70, "supporting text"⟩,
         ⟨"YieldAgent", "impact", .int 60, "impact text"⟩] := by
  refine ⟨?_, by decide⟩
  intro results
  refine ⟨roleSortAnn_perm results, rfl, roleSortAnn_pairwise results,
    sortedResults_pairwise results, ?_, ?_⟩
  · rw [fmtBlocks, buildBlocks_eq]
  · rw [fmtRoleLog, buildBlocks_eq]

/-- C7 counterexample: a master payload with two collected results, one of
which has blank content, carries routing_mode "multi_agent" into the
formatter's meta although only one entry survives the empty-content drop —
refuting "multi exactly when more than one survives". -/
theorem c7_cex :
    fmtStructured (masterPayload "my crop"
        [⟨"PestAgent", "primary", .int 92⟩, ⟨"CropAgent", "supporting", .int 60⟩]
        (fun a => if a = "PestAgent" then "Use neem spray." else "   "))
      = .ok ["[PRIMARY | PestAgent]\nUse neem spray."]
          ⟨"multi_agent", [("PestAgent", "primary")], 1⟩ ∧
    ¬(("multi_agent" : String) = "multi_agent" ↔ (1 : Nat) > 1) :=
  ⟨by decide, by decide⟩

/-- C7 (amended): routing_mode is "multi_agent" exactly when MORE THAN ONE
agent result was collected BEFORE the formatter's empty-content drop; the
formatter copies it into meta unchanged, while meta's agent_count counts only
the surviving entries. -/
theorem c7_routing_mode (q : String) (plan : List RouteEntry)
    (handlers : String → String) (p : Payload) (blocks : List String)
    (meta : FmtMeta) (hok : fmtStructured p = .ok blocks meta) :
    ((masterPayload q plan handlers).routing_mode = "multi_agent" ↔
      1 < (buildAgentResults plan handlers).length) ∧
    meta.routing_mode = p.routing_mode ∧
    meta.agent_count = (fmtRoleLog p.agent_results).length := by
  refine ⟨?_, ?_⟩
  · show (if 1 < (buildAgentResults plan handlers).length
      then "multi_agent" else "single_agent") = "multi_agent" ↔ _
    by_cases h : 1 < (buildAgentResults plan handlers).length
    · rw [if_pos h]
      exact ⟨fun _ => h, fun _ => rfl⟩
    · rw [if_neg h]
      constructor
      · intro hcontra
        exact absurd hcontra (by decide)
      · intro hh
        exact absurd hh h
  · unfold fmtStructured at hok
    split at hok
    · exact FmtOutcome.noConfusion hok
    · split at hok
      · exact FmtOutcome.noConfusion hok
      · injection hok with h1 h2
        subst h2
        exact ⟨rfl, rfl⟩

/-- C7 witness: a single-result payload has routing_mode "single_agent", the
formatter copies it, and the survivor count is 1. -/
theorem c7_w :
    ((masterPayload "q0" [⟨"CropAgent", "primary", .int 0⟩]
        (fun _ => "General advice.")).routing_mode = "multi_agent" ↔
      1 < (buildAgentResults [⟨"CropAgent", "primary", .int 0⟩]
        (fun _ => "General advice.")).length) ∧
    (FmtMeta.mk "single_agent" [("CropAgent", "primary")] 1).routing_mode
      = (Payload.mk "q0" "single_agent"
          [⟨"CropAgent", "primary", .int 0, "General advice."⟩]).routing_mode ∧
    (FmtMeta.mk "single_agent" [("CropAgent", "primary")] 1).agent_count
      = (fmtRoleLog [⟨"CropAgent", "primary", .int 0, "General advice."⟩]).length :=
  c7_routing_mode "q0" [⟨"CropAgent", "primary", .int 0⟩] (fun _ => "General advice.")
    (Payload.mk "q0" "single_agent" [⟨"CropAgent", "primary", .int 0, "General advice."⟩])
    ["[PRIMARY | CropAgent]\nGeneral advice."]
    (FmtMeta.mk "single_agent" [("CropAgent", "primary")] 1) (by decide)

/-- C5: once a query reaches the gate's LLM branch, a reply that strips and
uppercases to the literal PASS makes the gate return the fixed pass message
(never the reply text itself, which it always differs from), and any other
reply is returned to the user as the (stripped) reply text. -/
theorem c5_pass_token (s r : String) (img : Option String)
    (h1 : pyStrip s ≠ "")
    (hg : pyLower (pyStrip s) ∉ clarifGreetings)
    (ht : pyLower (pyStrip s) ∉ clarifThanks)
    (hb : pyLower (pyStrip s) ∉ clarifGoodbyes)
    (hlen2 : 2 ≤ (pyStrip s).length) :
    (pyUpper (pyStrip r) = "PASS" →
      clarifHandle (some s) img (some r) = passMsg ∧ passMsg ≠ pyStrip r) ∧
    (pyUpper (pyStrip r) ≠ "PASS" →
      clarifHandle (some s) img (some r) = pyStrip r) := by
  have hcond : ¬(pyTruthy (some s) = false ∨ pyStrip s = "") := by
    rintro (h | h)
    · simp only [pyTruthy, Bool.not_eq_false', beq_iff_eq] at h
      exact h1 (by rw [h]; rfl)
    · exact h1 h
  simp only [clarifHandle, Option.getD_some]
  rw [if_neg hcond, if_neg hg, if_neg ht, if_neg hb,
    if_neg (fun hc => by omega)]
  constructor
  · intro hp
    rw [if_pos hp]
    refine ⟨rfl, ?_⟩
    intro heq
    have hup : pyUpper passMsg = "PASS" := by rw [heq]; exact hp
    exact absurd hup (by decide)
  · intro hp
    rw [if_neg hp]
    rfl

/-- C5 witness: a clear concrete query; the reply " pass " triggers the pass
message (which differs from the reply), while "Which crop is it?" is shown
as-is. -/
theorem c5_w :
    (clarifHandle (some "How do I treat aphids on tomatoes?") none (some " pass ")
        = passMsg ∧ passMsg ≠ pyStrip " pass ") ∧
    clarifHandle (some "How do I treat aphids on tomatoes?") none
        (some "Which crop is it?") = pyStrip "Which crop is it?" :=
  ⟨(c5_pass_token "How do I treat aphids on tomatoes?" " pass " none
      (by decide) (by decide) (by decide) (by decide) (by decide)).1 (by decide),
   (c5_pass_token "How do I treat aphids on tomatoes?" "Which crop is it?" none
      (by decide) (by decide) (by decide) (by decide) (by decide)).2 (by decide)⟩

/-- C9: an image that is missing (empty path or non-existent file),
oversized, unreadable, empty, or whose magic bytes are neither PNG nor JPEG
makes the vision service return one of its five fixed user-facing messages
before the external call (visionCheck `none` is the only path that reaches
the Groq client). -/
theorem c9_vision_rejects (fs : FileSys) (path : String)
    (hbad : path = "" ∨ fs.present path = false ∨ 8 * 1024 * 1024 < fs.size path ∨
      fs.read path = none ∨ fs.read path = some [] ∨
      (detectMime fs path ≠ "image/png" ∧ detectMime fs path ≠ "image/jpeg")) :
    ∃ msg ∈ visionMessages, visionCheck fs path = some msg := by
  unfold visionCheck
  by_cases hc1 : path = "" ∨ fs.present path = false
  · rw [if_pos hc1]
    exact ⟨msgNotFound, by decide, rfl⟩
  · rw [if_neg hc1]
    by_cases hc2 : 8 * 1024 * 1024 < fs.size path
    · rw [if_pos hc2]
      exact ⟨msgTooLarge, by decide, rfl⟩
    · rw [if_neg hc2]
      by_cases hc3 : detectMime fs path ≠ "image/png" ∧ detectMime fs path ≠ "image/jpeg"
      · rw [if_pos hc3]
        exact ⟨msgBadFormat, by decide, rfl⟩
      · rw [if_neg hc3]
        rcases hbad with h | h | h | h | h | h
        · exact absurd (Or.inl h) hc1
        · exact absurd (Or.inr h) hc1
        · exact absurd h hc2
        · rw [h]
          exact ⟨msgUnreadable, by decide, rfl⟩
        · rw [h]
          exact ⟨msgEmptyFile, by decide, rfl⟩
        · exact absurd h hc3

/-- C9 witness: a missing file is rejected with one of the fixed messages. -/
theorem c9_w : ∃ msg ∈ visionMessages, visionCheck c9fs "ghost.png" = some msg :=
  c9_vision_rejects c9fs "ghost.png" (Or.inr (Or.inl rfl))

end AgriGPT
